import Mathlib

/-!
Shallow embedding of the CNY-Auspicious-Report repository: three near-duplicate
serverless request handlers that validate a date-of-birth request, build a
prompt, call an upstream text-generation API once, and map the result or the
failure to a JSON HTTP response.

Variants embedded here:
* `handlerFortune` — `src/netlify/functions/fortune.js` (Netlify, Chat
  Completions API, loose dob check, hardcoded expiry date compared as a
  string, expiry returns 200 with a notice).
* `handler000` — `src/unnamed/part_000` (Netlify, Responses API, strict
  `DDMMMYYYY` dob check after uppercasing/trimming, env-configured expiry,
  expiry returns 200 with a notice, sign-off appended).
* `handler001` — `src/unnamed/part_001` (Vercel, Chat Completions API,
  non-empty-after-trim dob check, hardcoded expiry with an invalid-date
  fail-open branch, expiry returns 410).

The single awaited upstream call is modelled by passing the upstream's
response as an input (`UpstreamResult`); the returned `Outcome` records the
HTTP response together with whether the upstream call was reached.
JavaScript `Date` parsing is modelled by an oracle (`Option Int`: `none` is
an Invalid Date / NaN timestamp); `JSON.parse` of the request body is
modelled by `parseBody` over an abstract `RawBody`.
-/

namespace CNY

/-- JavaScript-like request-field values, as far as the handlers inspect
them: `undefined`, `null`, booleans, (integer) numbers and strings. -/
inductive JsVal where
  | undef
  | nullv
  | boolean (b : Bool)
  | num (n : Int)
  | str (s : String)
deriving DecidableEq

/-- JavaScript truthiness for the modelled values: `undefined`, `null`,
`false`, `0` and `""` are falsy. -/
def truthy : JsVal → Bool
  | .undef => false
  | .nullv => false
  | .boolean b => b
  | .num n => n != 0
  | .str s => s != ""

/-- The two request-body fields the handlers read (`dob`, `language`); a
field missing from the parsed JSON object is `undef`. -/
structure Fields where
  dob : JsVal
  language : JsVal
deriving DecidableEq

/-- The raw request body, at the granularity the handlers distinguish:
absent, the empty string, some string that is not valid JSON, or a valid
JSON object with the two fields of interest. -/
inductive RawBody where
  | absent
  | empty
  | malformed
  | object (fields : Fields)
deriving DecidableEq

/-- `JSON.parse(event.body || "{}")` (fortune.js line 52, part_000 line 106)
and part_001's `parseJsonBody`: an absent or empty body parses to the empty
object (so both fields are `undefined`), malformed JSON throws, and a JSON
object yields its fields. -/
def parseBody : RawBody → Except Unit Fields
  | .absent => .ok ⟨.undef, .undef⟩
  | .empty => .ok ⟨.undef, .undef⟩
  | .malformed => .error ()
  | .object f => .ok f

/-- The parsed upstream response at the granularity the extraction code
reads: `data.output_text` and `data.choices[0].message.content`, each either
absent (`none`) or a string (possibly empty, which is falsy in JS). -/
structure UpstreamData where
  output_text : Option String
  choicesContent : Option String
deriving DecidableEq

/-- Outcome of the one `fetch` to the upstream API: `ok`/`status` from the
HTTP layer, `errText` the raw error body read on failure, `data` the parsed
JSON body read on success. -/
structure UpstreamResult where
  ok : Bool
  status : Nat
  errText : String
  data : UpstreamData
deriving DecidableEq

/-- JS truthiness of a possibly-absent string: truthy iff present and
non-empty. -/
def truthyS : Option String → Bool
  | none => false
  | some s => s != ""

/-- The JSON response bodies the handlers produce: always an object with a
single field, one of `html`, `resultHtml`, `error`, `message`. -/
inductive RespBody where
  | html (s : String)
  | resultHtml (s : String)
  | error (s : String)
  | message (s : String)
deriving DecidableEq

/-- An HTTP-style response: status code plus the single-field JSON body. -/
structure Resp where
  statusCode : Nat
  body : RespBody
deriving DecidableEq

/-- A handler run's observable outcome: the response, whether the upstream
`fetch` was reached, and the prompt sent to it (`none` when no call was
made). -/
structure Outcome where
  resp : Resp
  calledUpstream : Bool
  promptSent : Option String
deriving DecidableEq

/-- JS string whitespace as it occurs at the ends of the embedded template
literals (`String.prototype.trim` on ASCII input). -/
def jsWhitespace (c : Char) : Bool :=
  c = ' ' || c = '\t' || c = '\n' || c = '\r' || c = Char.ofNat 11 || c = Char.ofNat 12

/-- Trim on the character list: drop leading and trailing whitespace. -/
def jsTrimChars (l : List Char) : List Char :=
  ((l.dropWhile jsWhitespace).reverse.dropWhile jsWhitespace).reverse

/-- Model of `String.prototype.trim` for the ASCII strings the handlers
trim. -/
def jsTrim (s : String) : String :=
  ⟨jsTrimChars s.data⟩

/-- Model of `String.prototype.toUpperCase` for ASCII input (the inputs the
claims exercise), as a character-wise map. -/
def jsToUpper (s : String) : String :=
  ⟨s.data.map Char.toUpper⟩

/-- Lexicographic strict comparison of character lists, mirroring the
JavaScript `<`/`>` relational operators on strings (code-unit order; the
dates compared here are ASCII, where code units and code points agree). -/
def ltChars : List Char → List Char → Bool
  | [], [] => false
  | [], _ :: _ => true
  | _ :: _, [] => false
  | a :: as, b :: bs => if a < b then true else if b < a then false else ltChars as bs

/-- JavaScript string `<` (so `a > b` is `jsLtS b a`). -/
def jsLtS (a b : String) : Bool := ltChars a.data b.data

/-- `c :: cs` begins with `pat`. -/
def isPrefixL : List Char → List Char → Bool
  | [], _ => true
  | _ :: _, [] => false
  | a :: as, b :: bs => a == b && isPrefixL as bs

/-- Number of positions of `l` at which the pattern `pat` occurs (counting
overlapping occurrences). -/
def countOcc (pat : List Char) : List Char → Nat
  | [] => 0
  | c :: rest => (if isPrefixL pat (c :: rest) then 1 else 0) + countOcc pat rest

/-- part_000 lines 22-24: strict DOB format `DDMMMYYYY`
(`/^\d{2}[A-Z]{3}\d{4}$/`). -/
def isValidDOB (s : String) : Bool :=
  match s.data with
  | [a, b, c, d, e, f, g, h, i] =>
      a.isDigit && b.isDigit &&
      (('A' ≤ c && c ≤ 'Z') && ('A' ≤ d && d ≤ 'Z') && ('A' ≤ e && e ≤ 'Z')) &&
      f.isDigit && g.isDigit && h.isDigit && i.isDigit
  | _ => false

/-- The string payload of a `JsVal.str`; `""` otherwise (only applied where
the code has already established the value is a string). -/
def strOf : JsVal → String
  | .str s => s
  | _ => ""

/-! ### fortune.js (`src/netlify/functions/fortune.js`) -/

/-- fortune.js line 13: hard stop date for the service, `YYYY-MM-DD`. -/
def EXPIRY_DATE_fortune : String := "2026-04-30"

/-- fortune.js lines 39-44: the static expiry notice HTML. -/
def fortuneExpiryHtml : String :=
  "\n        <div class=\"expired-message\">\n          <strong>This service has ended.</strong><br/>\n          Thank you for your interest in the 2026 Auspicious Year Report.\n        </div>\n      "

/-- fortune.js line 67: the Simplified-Chinese language instruction. -/
def zhInstructionFortune : String :=
  "Write the entire report in natural, fluent Simplified Chinese suitable for readers in Singapore. Keep headings and structure clear. IMPORTANT: In the 'Practical Dos & Don'ts for 2026' section, keep the bullet labels beginning with 'Do:' and 'Don't:' in English so the front-end can style them, but the rest of the sentence can be in Chinese."

/-- fortune.js line 68: the English language instruction. -/
def enInstructionFortune : String :=
  "Write the entire report in English. In the 'Practical Dos & Don'ts for 2026' section, each bullet should start with 'Do:' or 'Don't:' so the front-end can colour them."

/-- fortune.js lines 65-68: pick the language instruction from the collapsed
language tag. -/
def languageInstructionFortune (lang : String) : String :=
  if lang = "zh" then zhInstructionFortune else enInstructionFortune

/-- fortune.js template lines 70-71: the text before the `dob` slot. -/
def fortunePromptPre : String := "\nDate of birth: "

/-- fortune.js template lines 71-85: the text between the `dob` slot and the
`languageInstruction` slot. -/
def fortunePromptMid : String :=
  "\n\nPlease generate a personalised 2026 auspicious year report based on this birth date using a blend of feng shui, astrology, and numerology themes.\n\nRequirements:\n- Write in a warm, encouraging, and grounded tone.\n- Structure the report with clear HTML headings and paragraphs <h2>, <h3>, <p>, <ul>, <li>.\n- Start with an overview of the general energy for 2026 for this person.\n- Then include sections such as: Career & Wealth, Relationships & Family, Health & Well-Being, Personal Growth & Opportunities.\n- Include a specific section titled: \"Practical Dos & Don'ts for 2026\" as a bullet list.\n- Each bullet in that section must begin with \"Do:\" or \"Don't:\" exactly, followed by the advice sentence.\n- Keep the length balanced: meaningful but not overly long, suitable for a one-page reading.\n\nLanguage rule:\n"

/-- fortune.js template lines 85-86: the text after the `languageInstruction`
slot (a newline and the closing indentation). -/
def fortunePromptSuf : String := "\n    "

/-- fortune.js lines 70-86: the prompt template, interpolating `dob` and the
language instruction, then `.trim()`. -/
def promptFortune (dob lang : String) : String :=
  jsTrim (fortunePromptPre ++ dob ++ fortunePromptMid ++ languageInstructionFortune lang ++ fortunePromptSuf)

/-- fortune.js lines 55-63: `!dob || typeof dob !== "string"` — `dob` is
rejected unless it is a non-empty string. -/
def dobRejectedFortune : JsVal → Bool
  | .str s => s == ""
  | _ => true

/-- fortune.js line 134: fallback HTML when the upstream message is falsy. -/
def fortuneFallbackHtml : String :=
  "<p>Sorry, I could not generate your report at this time. Please try again later.</p>"

/-- fortune.js lines 126-134: read `choices[0].message.content` if truthy,
else substitute the fallback paragraph. -/
def extractFortune (d : UpstreamData) : String :=
  if truthyS d.choicesContent then d.choicesContent.getD "" else fortuneFallbackHtml

/-- fortune.js lines 17-23: 405 response. -/
def methodNotAllowedFortune : Resp := ⟨405, .error "Method not allowed"⟩

/-- fortune.js lines 25-34: 500 response when `OPENAI_API_KEY` is unset. -/
def configErrorFortune : Resp :=
  ⟨500, .error "Server configuration error: API key not set."⟩

/-- fortune.js lines 55-63: 400 response for a rejected `dob`. -/
def invalidDobFortune : Resp :=
  ⟨400, .error "Missing or invalid 'dob'. Please provide DDMMMYYYY."⟩

/-- fortune.js lines 112-123: 502 response for an upstream non-success. -/
def upstreamErrorFortune : Resp :=
  ⟨502, .error "OpenAI API error. Please try again later or contact the site owner."⟩

/-- fortune.js lines 141-150: catch-all 500 response. -/
def unexpectedErrorFortune : Resp :=
  ⟨500, .error "Unexpected server error. Please try again later."⟩

/-- The fortune.js handler. Inputs: the `OPENAI_API_KEY` configuration, the
request method, `new Date().toISOString().slice(0, 10)` (compared to the
expiry date as a string), the raw body, and the result the one upstream
`fetch` would produce. A thrown `JSON.parse` error lands in the outer
`catch` (line 141), hence the 500 on a malformed body. -/
def handlerFortune (apiKey : Option String) (httpMethod : String)
    (today : String) (body : RawBody) (upstream : UpstreamResult) : Outcome :=
  if httpMethod != "POST" then ⟨methodNotAllowedFortune, false, none⟩
  else if apiKey.isNone then ⟨configErrorFortune, false, none⟩
  else if jsLtS EXPIRY_DATE_fortune today then ⟨⟨200, .html fortuneExpiryHtml⟩, false, none⟩
  else
    match parseBody body with
    | .error _ => ⟨unexpectedErrorFortune, false, none⟩
    | .ok fields =>
        let lang := if fields.language = JsVal.str "zh" then "zh" else "en"
        if dobRejectedFortune fields.dob then ⟨invalidDobFortune, false, none⟩
        else
          let dob := strOf fields.dob
          if !upstream.ok then ⟨upstreamErrorFortune, true, some (promptFortune dob lang)⟩
          else ⟨⟨200, .html (extractFortune upstream.data)⟩, true, some (promptFortune dob lang)⟩

/-! ### part_000 (`src/unnamed/part_000`, a Netlify `fortune.js` variant) -/

/-- part_000 line 10. -/
def EXPIRY_MESSAGE : String := "This service has ended. Thank you for your interest."

/-- part_000 lines 26-35: the default sign-off block. -/
def defaultSignOff : String :=
  "\n  <div class=\"signoff\">\n    — <strong>Prepared by Mike Lim</strong>, CEA Reg No. R026708F<br/>\n    📞 +65 9692 9209<br/>\n    <strong>SGHomeCompass | Your Chapter in Home Transition</strong><br/>\n    🔗 <a href=\"https://www.youtube.com/@SGHomeCompass\" target=\"_blank\" rel=\"noopener\">YouTube</a>  |  \n       <a href=\"https://www.instagram.com/sghomecompass/\" target=\"_blank\" rel=\"noopener\">Instagram</a>\n  </div>"

/-- part_000 template lines 38-39: text before the `dob` slot. -/
def buildPromptPre : String :=
  "You are generating a concise, upbeat 2026 Auspicious Report for entertainment only.\nUser supplied a date of birth: "

/-- part_000 template lines 39-61: text after the `dob` slot. -/
def buildPromptSuf : String :=
  ". Use it to personalize lightly via zodiac/numerology style cues.\nSingapore audience; keep language clear, non-mystical, and avoid absolutes.\nLength target: 170–220 words.\n\nReturn ONLY HTML with these sections (use <h3> and <p> tags):\n<h3>Overall Outlook (2026)</h3>\n... 2–3 sentences.\n<h3>Career & Wealth</h3>\n... 3–4 sentences with one practical focus month.\n<h3>Relationships & Network</h3>\n... 2–3 sentences.\n<h3>Health & Energy</h3>\n... 2–3 sentences with one sustainable habit.\n<h3>Home & Property (Practical Feng Shui Angle)</h3>\n... 3–4 sentences, include a simple declutter/refresh tip and a month window.\n<h3>Lucky Anchor</h3>\n... 1 colour or element + one weekly reset ritual.\n\nRules:\n- Do NOT request or store personal data beyond the DOB given.\n- Avoid medical/financial claims; use “tendencies” and “energy” language.\n- Keep it positive, specific, and mobile-friendly paragraphs.\n"

/-- part_000 lines 37-62: `buildPrompt(dob)`. -/
def buildPrompt (dob : String) : String := buildPromptPre ++ dob ++ buildPromptSuf

/-- part_000 line 90: `data.output_text || (data.choices && data.choices[0]
&& data.choices[0].message && data.choices[0].message.content) || ""`. -/
def extract000 (d : UpstreamData) : String :=
  if truthyS d.output_text then d.output_text.getD ""
  else if truthyS d.choicesContent then d.choicesContent.getD ""
  else ""

/-- part_000 line 107: `(body.dob || "").toUpperCase().trim()`. A falsy
`dob` becomes `""`; a truthy non-string has no `toUpperCase` method, so the
expression throws (`none`). ASCII `toUpperCase`/`trim` are modelled by
`String.toUpper`/`jsTrim`. -/
def dobNorm000 (v : JsVal) : Option String :=
  match (if truthy v then v else JsVal.str "") with
  | .str s => some (jsTrim (jsToUpper s))
  | _ => none

/-- part_000 line 97: 405 response. -/
def methodNotAllowed000 : Resp := ⟨405, .message "Use POST /api/fortune"⟩

/-- part_000 line 110: 400 response for an invalid `dob`. -/
def invalidDob000 : Resp := ⟨400, .message "Please use DDMMMYYYY, e.g., 08DEC1977."⟩

/-- part_000 line 124: catch-all 500 response (missing key, upstream error
and JSON-parse failures all throw into it). -/
def serverError000 : Resp := ⟨500, .message "Server error. Please try again later."⟩

/-- part_000 line 117: `process.env.SIGN_OFF_HTML || getDefaultSignOff()`. -/
def signOff000 (envSignOff : Option String) : String :=
  match envSignOff with
  | some s => if s != "" then s else defaultSignOff
  | none => defaultSignOff

/-- part_000 lines 106-121 plus `callOpenAI` (lines 64-92): the processing
that runs once the method and expiry gates have passed. The missing-key
check sits inside `callOpenAI`, before the `fetch`; its throw, an upstream
non-success throw, and a `JSON.parse` throw are all caught at line 122 and
become the generic 500. -/
def afterExpiry000 (apiKey : Option String) (envSignOff : Option String)
    (body : RawBody) (upstream : UpstreamResult) : Outcome :=
  match parseBody body with
  | .error _ => ⟨serverError000, false, none⟩
  | .ok fields =>
      match dobNorm000 fields.dob with
      | none => ⟨serverError000, false, none⟩
      | some dob =>
          if !isValidDOB dob then ⟨invalidDob000, false, none⟩
          else
            match apiKey with
            | none => ⟨serverError000, false, none⟩
            | some _ =>
                if !upstream.ok then ⟨serverError000, true, some (buildPrompt dob)⟩
                else
                  ⟨⟨200, .resultHtml (extract000 upstream.data ++ "\n" ++ signOff000 envSignOff)⟩,
                    true, some (buildPrompt dob)⟩

/-- part_000 lines 101-102: `process.env.EXPIRY_DATE ? new
Date(process.env.EXPIRY_DATE) : null` and `expiry && new Date() > expiry`.
`dateParse` is the `new Date(string)` oracle (`none` = Invalid Date, whose
NaN timestamp makes the `>` comparison false). -/
def expired000 (envExpiry : Option String) (dateParse : String → Option Int)
    (now : Int) : Bool :=
  match envExpiry with
  | none => false
  | some s =>
      match dateParse s with
      | none => false
      | some t => t < now

/-- The part_000 handler (lines 94-126). -/
def handler000 (httpMethod : String) (envExpiry : Option String)
    (dateParse : String → Option Int) (now : Int) (envSignOff : Option String)
    (apiKey : Option String) (body : RawBody) (upstream : UpstreamResult) : Outcome :=
  if httpMethod != "POST" then ⟨methodNotAllowed000, false, none⟩
  else if expired000 envExpiry dateParse now then
    ⟨⟨200, .resultHtml ("<p>" ++ EXPIRY_MESSAGE ++ "</p>")⟩, false, none⟩
  else afterExpiry000 apiKey envSignOff body upstream

/-! ### part_001 (`src/unnamed/part_001`, a Vercel `api/fortune.js` variant) -/

/-- part_001 line 40: 405 response. -/
def methodNotAllowed001 : Resp := ⟨405, .error "Method not allowed. Use POST."⟩

/-- part_001 lines 45-50: 500 response when `OPENAI_API_KEY` is unset. -/
def configError001 : Resp := ⟨500, .error "Server misconfigured: missing OPENAI_API_KEY."⟩

/-- part_001 lines 60-64: 410 response once the campaign has expired. -/
def expiredResp001 : Resp :=
  ⟨410, .error "This 2026 Auspicious Report campaign has ended. Please check back for future editions."⟩

/-- part_001 line 72: 400 response when the body fails to parse. -/
def invalidBody001 : Resp := ⟨400, .error "Invalid JSON body."⟩

/-- part_001 lines 79-85: 400 response for an empty/absent `dob`. -/
def invalidDob001 : Resp :=
  ⟨400, .error "Missing or invalid 'dob'. Please provide DDMMMYYYY (e.g. 08DEC1977)."⟩

/-- part_001 lines 148-151: 502 response for an upstream non-success. -/
def upstreamError001 : Resp :=
  ⟨502, .error "OpenAI API error. Please try again later or contact the site owner if this persists."⟩

/-- part_001 line 158: fallback HTML when the extracted text is falsy. -/
def fallbackHtml001 : String :=
  "<p>Sorry, the report could not be generated. Please try again later.</p>"

/-- part_001 lines 156-158:
`data?.choices?.[0]?.message?.content?.trim() || fallback`. -/
def extract001 (d : UpstreamData) : String :=
  match d.choicesContent with
  | some s => if jsTrim s != "" then jsTrim s else fallbackHtml001
  | none => fallbackHtml001

/-- part_001 line 89: the Simplified-Chinese language instruction. -/
def zhInstruction001 : String :=
  "Write the entire report in natural, fluent Simplified Chinese suitable for readers in Singapore. Keep the HTML structure and section headings consistent."

/-- part_001 line 90: the English language instruction. -/
def enInstruction001 : String :=
  "Write the entire report in English. Keep the HTML structure and section headings consistent."

/-- part_001 lines 87-90. -/
def languageInstruction001 (lang : String) : String :=
  if lang = "zh" then zhInstruction001 else enInstruction001

/-- part_001 template lines 92-95: text before the `dob` slot. -/
def sections001Pre : String :=
  "\nPlease generate a personalised 2026 Auspicious Year Report for the following person.\n\nDate of birth: "

/-- part_001 template lines 95-114: text after the `dob` slot. -/
def sections001Suf : String :=
  "\n\nUse a warm, encouraging, grounded tone. Avoid fatalistic or overly superstitious wording. Keep it modern and practical.\n\nStructure the report using HTML with the following sections, in this order:\n\n1) Overview\n2) Career and Wealth\n3) Family and Relationships\n4) Energy and Health\n5) Personal Growth and Hurdles\n6) Practical Dos & Don'ts for 2026  (this must be a bullet list)\n\nHTML requirements:\n- Use <h2> or <h3> for section headings.\n- Use <p> for paragraphs.\n- For the \"Practical Dos & Don'ts for 2026\" section, use <ul> and <li>.\n- Each bullet in that section must start with \"Do:\" or \"Don't:\" exactly, followed by the advice sentence.\n- Overall length should feel like a one-page reading: meaningful but not overly long.\n"

/-- part_001 lines 92-114: `sectionsInstruction`. -/
def sectionsInstruction001 (dob : String) : String :=
  sections001Pre ++ dob ++ sections001Suf

/-- part_001 line 116: the full prompt. -/
def prompt001 (dob lang : String) : String :=
  languageInstruction001 lang ++ "\n\n" ++ sectionsInstruction001 dob

/-- part_001 line 76: `typeof body.dob === "string" ? body.dob.trim() : ""`. -/
def dob001 : JsVal → String
  | .str s => jsTrim s
  | _ => ""

/-- part_001 lines 67-166: the processing that runs once the method, key and
expiry gates have passed. -/
def afterExpiry001 (body : RawBody) (upstream : UpstreamResult) : Outcome :=
  match parseBody body with
  | .error _ => ⟨invalidBody001, false, none⟩
  | .ok fields =>
      let dob := dob001 fields.dob
      let lang := if fields.language = JsVal.str "zh" then "zh" else "en"
      if dob = "" then ⟨invalidDob001, false, none⟩
      else if !upstream.ok then ⟨upstreamError001, true, some (prompt001 dob lang)⟩
      else ⟨⟨200, .html (extract001 upstream.data)⟩, true, some (prompt001 dob lang)⟩

/-- The part_001 handler (lines 38-167). `expiryParsed` is the `new
Date("2026-03-31T23:59:59Z")` oracle: `none` models `Number.isNaN(
expiry.getTime())`, in which case the code only logs and falls through
(lines 57-59, fail open). -/
def handler001 (httpMethod : String) (apiKey : Option String)
    (expiryParsed : Option Int) (now : Int) (body : RawBody)
    (upstream : UpstreamResult) : Outcome :=
  if httpMethod != "POST" then ⟨methodNotAllowed001, false, none⟩
  else if apiKey.isNone then ⟨configError001, false, none⟩
  else
    match expiryParsed with
    | none => afterExpiry001 body upstream
    | some t => if t < now then ⟨expiredResp001, false, none⟩ else afterExpiry001 body upstream

/-! ### Shared concrete inputs used by witnesses and counterexamples -/

/-- A successful upstream response carrying a chat-completions message. -/
def upOk : UpstreamResult := ⟨true, 200, "", ⟨none, some "REPORT"⟩⟩

/-- A failed upstream response carrying a raw error body. -/
def upFail : UpstreamResult := ⟨false, 500, "upstream raw error body", ⟨none, none⟩⟩

/-! ### Helper lemmas about `isPrefixL`, `countOcc` and `jsTrimChars` -/

theorem isPrefixL_refl (l : List Char) : isPrefixL l l = true := by
  induction l with
  | nil => rfl
  | cons a as ih => simp [isPrefixL, ih]

theorem isPrefixL_append_mono {pat l : List Char} (t : List Char)
    (h : isPrefixL pat l = true) : isPrefixL pat (l ++ t) = true := by
  induction pat generalizing l with
  | nil => rfl
  | cons a as ih =>
    cases l with
    | nil => simp [isPrefixL] at h
    | cons b bs =>
      simp only [isPrefixL, Bool.and_eq_true] at h
      simp only [List.cons_append, isPrefixL, Bool.and_eq_true]
      exact ⟨h.1, ih h.2⟩

theorem le_countOcc_append_right (pat l₁ l₂ : List Char) :
    countOcc pat l₂ ≤ countOcc pat (l₁ ++ l₂) := by
  induction l₁ with
  | nil => simp
  | cons c cs ih =>
    simp only [List.cons_append, countOcc]
    exact le_trans ih (Nat.le_add_left _ _)

theorem le_countOcc_append_left (pat l₁ l₂ : List Char) :
    countOcc pat l₁ ≤ countOcc pat (l₁ ++ l₂) := by
  induction l₁ with
  | nil => simp [countOcc]
  | cons c cs ih =>
    simp only [List.cons_append, countOcc]
    refine Nat.add_le_add ?_ ih
    by_cases h : isPrefixL pat (c :: cs) = true
    · have h2 : isPrefixL pat (c :: (cs ++ l₂)) = true := by
        have h3 := isPrefixL_append_mono l₂ h
        simpa using h3
      simp [h, h2]
    · simp [h]

theorem countOcc_pos_of_isPrefixL {pat l : List Char} (hp : pat ≠ [])
    (h : isPrefixL pat l = true) : 0 < countOcc pat l := by
  cases l with
  | nil =>
    cases pat with
    | nil => exact absurd rfl hp
    | cons a as => simp [isPrefixL] at h
  | cons c cs =>
    simp only [countOcc, h, if_pos]
    omega

theorem dropWhile_append_of_ne_nil {p : Char → Bool} {l₁ : List Char}
    (l₂ : List Char) (h : l₁.dropWhile p ≠ []) :
    (l₁ ++ l₂).dropWhile p = l₁.dropWhile p ++ l₂ := by
  induction l₁ with
  | nil => simp at h
  | cons c cs ih =>
    by_cases hp : p c
    · rw [List.dropWhile_cons_of_pos hp] at h
      rw [List.cons_append, List.dropWhile_cons_of_pos hp, List.dropWhile_cons_of_pos hp]
      exact ih h
    · rw [List.cons_append, List.dropWhile_cons_of_neg hp, List.dropWhile_cons_of_neg hp,
        List.cons_append]

/-- Trimming `A ++ x ++ R` never touches the middle `x` when the left trim
stops inside `A` and the right trim stops inside `R`. -/
theorem jsTrimChars_decomp (A x R : List Char)
    (hA : A.dropWhile jsWhitespace ≠ [])
    (hR : R.reverse.dropWhile jsWhitespace ≠ []) :
    jsTrimChars (A ++ (x ++ R)) =
      A.dropWhile jsWhitespace ++ (x ++ (R.reverse.dropWhile jsWhitespace).reverse) := by
  unfold jsTrimChars
  rw [dropWhile_append_of_ne_nil _ hA]
  rw [List.reverse_append, List.reverse_append]
  rw [List.append_assoc]
  rw [dropWhile_append_of_ne_nil _ hR]
  simp [List.reverse_append, List.reverse_reverse, List.append_assoc]

set_option maxRecDepth 40000

theorem data_jsTrim (s : String) : (jsTrim s).data = jsTrimChars s.data := rfl

/-- The fixed text of the fortune.js zh prompt after the `dob` slot, as it
survives the trailing trim. -/
def fortuneTailZh : List Char :=
  (((fortunePromptMid ++ zhInstructionFortune ++ fortunePromptSuf).data.reverse).dropWhile jsWhitespace).reverse

/-- The trimmed fortune.js zh prompt decomposes around the `dob` slot: the
leading trim stops at the `D` of `Date of birth:`, the trailing trim stops
at the last character of the language instruction, and the interpolated
`dob` sits untouched in between. -/
theorem promptFortune_zh_decomp (dob : String) :
    (promptFortune dob "zh").data =
      ("Date of birth: ").data ++ (dob.data ++ fortuneTailZh) := by
  have hdata : (promptFortune dob "zh").data =
      jsTrimChars (fortunePromptPre.data ++ (dob.data ++
        (fortunePromptMid ++ zhInstructionFortune ++ fortunePromptSuf).data)) := by
    simp [promptFortune, jsTrim, languageInstructionFortune, String.data_append,
      List.append_assoc]
  rw [hdata, jsTrimChars_decomp _ _ _ (by decide) (by decide)]
  have hpre : fortunePromptPre.data.dropWhile jsWhitespace = ("Date of birth: ").data := by
    decide
  rw [hpre]
  rfl

/-- The part_001 zh prompt decomposes around the `dob` slot (no trim). -/
theorem prompt001_zh_decomp (dob : String) :
    (prompt001 dob "zh").data =
      (zhInstruction001 ++ "\n\n" ++ sections001Pre).data ++
        (dob.data ++ sections001Suf.data) := by
  simp [prompt001, sectionsInstruction001, languageInstruction001, String.data_append,
    List.append_assoc]

/-- Claim C6: for every valid request with language "zh", the constructed
prompt contains both the instruction to produce the narrative in Simplified
Chinese (the variant's full Chinese-language instruction occurs verbatim)
and the literal English control tokens "Do:" and "Don't:" unmodified, in
both variants that support a language field (fortune.js and part_001). -/
theorem claim_C6 (dob : String) :
    (0 < countOcc zhInstructionFortune.data (promptFortune dob "zh").data ∧
     0 < countOcc ("Do:").data (promptFortune dob "zh").data ∧
     0 < countOcc ("Don't:").data (promptFortune dob "zh").data) ∧
    (0 < countOcc zhInstruction001.data (prompt001 dob "zh").data ∧
     0 < countOcc ("Do:").data (prompt001 dob "zh").data ∧
     0 < countOcc ("Don't:").data (prompt001 dob "zh").data) := by
  constructor
  · rw [promptFortune_zh_decomp]
    refine ⟨?_, ?_, ?_⟩
    · exact lt_of_lt_of_le (by decide)
        (le_trans (le_countOcc_append_right _ dob.data _) (le_countOcc_append_right _ _ _))
    · exact lt_of_lt_of_le (by decide)
        (le_trans (le_countOcc_append_right _ dob.data _) (le_countOcc_append_right _ _ _))
    · exact lt_of_lt_of_le (by decide)
        (le_trans (le_countOcc_append_right _ dob.data _) (le_countOcc_append_right _ _ _))
  · rw [prompt001_zh_decomp]
    refine ⟨?_, ?_, ?_⟩
    · exact lt_of_lt_of_le (by decide) (le_countOcc_append_left _ _ _)
    · exact lt_of_lt_of_le (by decide)
        (le_trans (le_countOcc_append_right _ dob.data _) (le_countOcc_append_right _ _ _))
    · exact lt_of_lt_of_le (by decide)
        (le_trans (le_countOcc_append_right _ dob.data _) (le_countOcc_append_right _ _ _))

/-- Claim C7, counterexample: in the fortune.js variant the dob `"2026"`
passes validation (any non-empty string is accepted), yet the constructed
prompt contains the literal dob string five times, not exactly once — the
fixed template text itself contains `2026`. -/
theorem claim_C7_counterexample :
    dobRejectedFortune (JsVal.str "2026") = false ∧
    countOcc ("2026").data (promptFortune "2026" "en").data = 5 ∧
    countOcc ("2026").data (promptFortune "2026" "en").data ≠ 1 := by
  have h : countOcc ("2026").data (promptFortune "2026" "en").data = 5 := by decide
  exact ⟨rfl, h, by rw [h]; decide⟩

/-- Claim C7, amended: prompt construction is a deterministic pure function
of the validated input in all three variants (equal inputs give identical
prompt strings), and for the spec's canonical strict-format example dob
`08DEC1977` — which shares no text with any fixed template — the prompt
contains the literal dob string exactly once in every variant and language.
For loosely validated dob values whose text occurs in the fixed template
(such as `"2026"`), the dob can occur more than once. -/
theorem claim_C7_amended :
    (∀ d₁ d₂ l₁ l₂ : String, d₁ = d₂ → l₁ = l₂ → promptFortune d₁ l₁ = promptFortune d₂ l₂) ∧
    (∀ d₁ d₂ : String, d₁ = d₂ → buildPrompt d₁ = buildPrompt d₂) ∧
    (∀ d₁ d₂ l₁ l₂ : String, d₁ = d₂ → l₁ = l₂ → prompt001 d₁ l₁ = prompt001 d₂ l₂) ∧
    countOcc ("08DEC1977").data (promptFortune "08DEC1977" "en").data = 1 ∧
    countOcc ("08DEC1977").data (promptFortune "08DEC1977" "zh").data = 1 ∧
    countOcc ("08DEC1977").data (buildPrompt "08DEC1977").data = 1 ∧
    countOcc ("08DEC1977").data (prompt001 "08DEC1977" "en").data = 1 ∧
    countOcc ("08DEC1977").data (prompt001 "08DEC1977" "zh").data = 1 := by
  refine ⟨?_, ?_, ?_, by decide, by decide, by decide, by decide, by decide⟩
  · intro d₁ d₂ l₁ l₂ hd hl; rw [hd, hl]
  · intro d₁ d₂ hd; rw [hd]
  · intro d₁ d₂ l₁ l₂ hd hl; rw [hd, hl]

theorem claim_C7_witness :
    promptFortune "08DEC1977" "en" = promptFortune "08DEC1977" "en" ∧
    buildPrompt "08DEC1977" = buildPrompt "08DEC1977" ∧
    prompt001 "08DEC1977" "zh" = prompt001 "08DEC1977" "zh" :=
  ⟨claim_C7_amended.1 _ _ _ _ rfl rfl, claim_C7_amended.2.1 _ _ rfl,
    claim_C7_amended.2.2.1 _ _ _ _ rfl rfl⟩

/-- Claim C5, counterexample: an upstream response carrying only the direct
output-text field is not tolerated by the fortune.js extraction (nor by
part_001's): it falls back to the apology paragraph instead of normalizing
the output text into the result. Only part_000 reads `output_text`. -/
theorem claim_C5_counterexample :
    extractFortune ⟨some "Direct output text", none⟩ = fortuneFallbackHtml ∧
    extractFortune ⟨some "Direct output text", none⟩ ≠ "Direct output text" ∧
    extract001 ⟨some "Direct output text", none⟩ = fallbackHtml001 := by
  exact ⟨rfl, by decide, rfl⟩

/-- Claim C5, amended: only the part_000 extraction tolerates both upstream
response shapes, normalizing either the direct `output_text` field or the
nested `choices[0].message.content` field to a single string; the
fortune.js and part_001 extractions read only the nested shape and are
insensitive to `output_text`. -/
theorem claim_C5_amended :
    (∀ s : String, s ≠ "" → extract000 ⟨some s, none⟩ = s) ∧
    (∀ s : String, s ≠ "" → ∀ o : Option String, truthyS o = false →
      extract000 ⟨o, some s⟩ = s) ∧
    (∀ o c, extractFortune ⟨o, c⟩ = extractFortune ⟨none, c⟩) ∧
    (∀ o c, extract001 ⟨o, c⟩ = extract001 ⟨none, c⟩) := by
  refine ⟨?_, ?_, ?_, ?_⟩
  · intro s hs
    simp [extract000, truthyS, bne_iff_ne, hs]
  · intro s hs o ho
    have h1 : truthyS (some s) = true := by simpa [truthyS, bne_iff_ne] using hs
    simp [extract000, ho, h1]
  · intro o c; rfl
  · intro o c; rfl

theorem claim_C5_witness :
    extract000 ⟨some "A", none⟩ = "A" ∧
    extract000 ⟨none, some "B"⟩ = "B" ∧
    extractFortune ⟨some "A", some "B"⟩ = extractFortune ⟨none, some "B"⟩ ∧
    extract001 ⟨some "A", none⟩ = extract001 ⟨none, none⟩ :=
  ⟨claim_C5_amended.1 "A" (by decide),
    claim_C5_amended.2.1 "B" (by decide) none rfl,
    claim_C5_amended.2.2.1 _ _, claim_C5_amended.2.2.2 _ _⟩

/-- Claim C1, counterexample: in the fortune.js variant the missing-API-key
check (line 25) runs before the expiry check (line 38), so a post-expiry
request with no key configured yields the 500 ConfigError outcome, not the
variant's 200 expiry notice — contradicting the claim that no post-expiry
request yields any other outcome such as a ConfigError. (part_001 orders
its gates the same way.) -/
theorem claim_C1_counterexample :
    jsLtS EXPIRY_DATE_fortune "2026-05-01" = true ∧
    handlerFortune none "POST" "2026-05-01" RawBody.absent upOk =
      ⟨configErrorFortune, false, none⟩ ∧
    configErrorFortune.statusCode = 500 ∧ configErrorFortune.statusCode ≠ 200 :=
  ⟨by decide, rfl, rfl, by decide⟩

/-- Claim C1, amended: every post-expiry POST request that passes the gates
preceding the expiry check (in fortune.js and part_001, the method gate and
the API-key gate; in part_000, the method gate alone) receives the
variant's expiry outcome — 200 with a static notice for fortune.js and
part_000, 410 for part_001 — and no upstream call is made. -/
theorem claim_C1_amended :
    (∀ (k today : String) (body : RawBody) (up : UpstreamResult),
      jsLtS EXPIRY_DATE_fortune today = true →
      handlerFortune (some k) "POST" today body up =
        ⟨⟨200, .html fortuneExpiryHtml⟩, false, none⟩) ∧
    (∀ (s : String) (dp : String → Option Int) (t now : Int)
        (signO key : Option String) (body : RawBody) (up : UpstreamResult),
      dp s = some t → t < now →
      handler000 "POST" (some s) dp now signO key body up =
        ⟨⟨200, .resultHtml ("<p>" ++ EXPIRY_MESSAGE ++ "</p>")⟩, false, none⟩) ∧
    (∀ (k : String) (t now : Int) (body : RawBody) (up : UpstreamResult),
      t < now →
      handler001 "POST" (some k) (some t) now body up =
        ⟨expiredResp001, false, none⟩) := by
  refine ⟨?_, ?_, ?_⟩
  · intro k today body up h
    simp [handlerFortune, h]
  · intro s dp t now signO key body up hdp hlt
    simp [handler000, expired000, hdp, hlt]
  · intro k t now body up h
    simp [handler001, h]

theorem claim_C1_witness :
    handlerFortune (some "key") "POST" "2026-05-01" RawBody.absent upOk =
      ⟨⟨200, .html fortuneExpiryHtml⟩, false, none⟩ ∧
    handler000 "POST" (some "2026-04-30") (fun _ => some 100) 101 none (some "key")
        RawBody.absent upOk =
      ⟨⟨200, .resultHtml ("<p>" ++ EXPIRY_MESSAGE ++ "</p>")⟩, false, none⟩ ∧
    handler001 "POST" (some "key") (some 100) 101 RawBody.absent upOk =
      ⟨expiredResp001, false, none⟩ :=
  ⟨claim_C1_amended.1 "key" "2026-05-01" _ _ (by decide),
    claim_C1_amended.2.1 "2026-04-30" _ 100 101 none (some "key") _ _ rfl (by decide),
    claim_C1_amended.2.2 "key" 100 101 _ _ (by decide)⟩

/-- Claim C2, counterexample: in the fortune.js variant a request body that
is not parseable as JSON makes `JSON.parse` throw into the catch-all
handler, producing the generic 500 response, not a 400 InvalidBody —
contradicting the claim that every unparseable body maps to a
400-equivalent status. (part_000 behaves the same; only part_001 returns
400.) -/
theorem claim_C2_counterexample :
    handlerFortune (some "key") "POST" "2026-01-01" RawBody.malformed upOk =
      ⟨unexpectedErrorFortune, false, none⟩ ∧
    unexpectedErrorFortune.statusCode = 500 ∧
    unexpectedErrorFortune.statusCode ≠ 400 :=
  ⟨rfl, rfl, by decide⟩

/-- Claim C2, amended: for a request whose body is not parseable as JSON
(and which reaches the body-parsing stage), the part_001 variant returns
the dedicated 400 InvalidBody error, while the fortune.js and part_000
variants surface the parse failure through their catch-all as the generic
500 error; in every variant no upstream call is made. -/
theorem claim_C2_amended :
    (∀ (k today : String) (up : UpstreamResult), jsLtS EXPIRY_DATE_fortune today = false →
      handlerFortune (some k) "POST" today RawBody.malformed up =
        ⟨unexpectedErrorFortune, false, none⟩) ∧
    (∀ (envE : Option String) (dp : String → Option Int) (now : Int)
        (signO key : Option String) (up : UpstreamResult),
      expired000 envE dp now = false →
      handler000 "POST" envE dp now signO key RawBody.malformed up =
        ⟨serverError000, false, none⟩) ∧
    (∀ (k : String) (ep : Option Int) (now : Int) (up : UpstreamResult),
      (∀ t, ep = some t → ¬ t < now) →
      handler001 "POST" (some k) ep now RawBody.malformed up =
        ⟨invalidBody001, false, none⟩) := by
  refine ⟨?_, ?_, ?_⟩
  · intro k today up h
    simp [handlerFortune, h, parseBody]
  · intro envE dp now signO key up h
    simp [handler000, h, afterExpiry000, parseBody]
  · intro k ep now up h
    cases ep with
    | none => simp [handler001, afterExpiry001, parseBody]
    | some t => simp [handler001, h t rfl, afterExpiry001, parseBody]

theorem claim_C2_witness :
    handlerFortune (some "key") "POST" "2026-02-02" RawBody.malformed upOk =
      ⟨unexpectedErrorFortune, false, none⟩ ∧
    handler000 "POST" none (fun _ => none) 0 none (some "key") RawBody.malformed upOk =
      ⟨serverError000, false, none⟩ ∧
    handler001 "POST" (some "key") none 0 RawBody.malformed upOk =
      ⟨invalidBody001, false, none⟩ :=
  ⟨claim_C2_amended.1 "key" "2026-02-02" _ (by decide),
    claim_C2_amended.2.1 none _ 0 none (some "key") _ rfl,
    claim_C2_amended.2.2 "key" none 0 _ (by intro t ht; simp at ht)⟩

/-- Claim C8: when the configured expiry cutoff fails to parse as a date,
both variants that parse a date treat the service as not expired and
proceed with normal request processing. In part_001 an invalid date is
detected by `Number.isNaN` and only logged (fail open); in part_000 the
Invalid Date's NaN timestamp makes the `now > expiry` comparison false. In
both cases the handler runs the post-expiry processing stage unchanged. -/
theorem claim_C8 :
    (∀ (k : String) (now : Int) (body : RawBody) (up : UpstreamResult),
      handler001 "POST" (some k) none now body up = afterExpiry001 body up) ∧
    (∀ (s : String) (dp : String → Option Int) (now : Int)
        (signO key : Option String) (body : RawBody) (up : UpstreamResult),
      dp s = none →
      handler000 "POST" (some s) dp now signO key body up =
        afterExpiry000 key signO body up) := by
  constructor
  · intro k now body up
    simp [handler001]
  · intro s dp now signO key body up h
    simp [handler000, expired000, h]

theorem claim_C8_witness :
    handler001 "POST" (some "key") none 0 RawBody.absent upOk =
      afterExpiry001 RawBody.absent upOk ∧
    handler000 "POST" (some "not-a-date") (fun _ => none) 0 none (some "key")
        RawBody.absent upOk =
      afterExpiry000 (some "key") none RawBody.absent upOk :=
  ⟨claim_C8.1 "key" 0 _ _, claim_C8.2 "not-a-date" _ 0 none (some "key") _ _ rfl⟩

/-- Claim C3, counterexample: fortune.js does not trim the dob, so the
whitespace-only dob `" "` — empty after trimming, which the claim says must
be rejected with InvalidInput — is a truthy string that passes validation,
and the request proceeds to the upstream call and a 200 outcome. -/
theorem claim_C3_counterexample :
    dobRejectedFortune (JsVal.str " ") = false ∧
    (handlerFortune (some "key") "POST" "2026-01-01"
        (RawBody.object ⟨JsVal.str " ", JsVal.undef⟩) upOk).resp =
      ⟨200, RespBody.html "REPORT"⟩ ∧
    (handlerFortune (some "key") "POST" "2026-01-01"
        (RawBody.object ⟨JsVal.str " ", JsVal.undef⟩) upOk).calledUpstream = true :=
  ⟨rfl, rfl, rfl⟩

/-- Claim C3, amended: each variant rejects dob values failing its own
validation rule with its 400 InvalidInput response and no upstream call —
fortune.js rejects a dob that is absent, not a string, or the empty string
(no trimming, so whitespace-only strings pass); part_001 rejects a dob that
is not a string or is empty after trimming; part_000 rejects a dob whose
uppercased and trimmed form fails the strict `DDMMMYYYY` pattern (an
absent/falsy dob becomes `""` and is rejected the same way), while a truthy
non-string dob makes `toUpperCase` throw into the catch-all 500 instead. -/
theorem claim_C3_amended :
    (∀ (k today : String) (f : Fields) (up : UpstreamResult),
      jsLtS EXPIRY_DATE_fortune today = false → dobRejectedFortune f.dob = true →
      handlerFortune (some k) "POST" today (RawBody.object f) up =
        ⟨invalidDobFortune, false, none⟩) ∧
    (∀ (k : String) (ep : Option Int) (now : Int) (f : Fields) (up : UpstreamResult),
      (∀ t, ep = some t → ¬ t < now) → dob001 f.dob = "" →
      handler001 "POST" (some k) ep now (RawBody.object f) up =
        ⟨invalidDob001, false, none⟩) ∧
    (∀ (envE : Option String) (dp : String → Option Int) (now : Int)
        (signO key : Option String) (f : Fields) (up : UpstreamResult) (s : String),
      expired000 envE dp now = false →
      dobNorm000 f.dob = some s → isValidDOB s = false →
      handler000 "POST" envE dp now signO key (RawBody.object f) up =
        ⟨invalidDob000, false, none⟩) ∧
    (∀ (envE : Option String) (dp : String → Option Int) (now : Int)
        (signO key : Option String) (f : Fields) (up : UpstreamResult),
      expired000 envE dp now = false → dobNorm000 f.dob = none →
      handler000 "POST" envE dp now signO key (RawBody.object f) up =
        ⟨serverError000, false, none⟩) := by
  refine ⟨?_, ?_, ?_, ?_⟩
  · intro k today f up hexp hrej
    simp [handlerFortune, hexp, parseBody, hrej]
  · intro k ep now f up hexp hdob
    cases ep with
    | none => simp [handler001, afterExpiry001, parseBody, hdob]
    | some t => simp [handler001, hexp t rfl, afterExpiry001, parseBody, hdob]
  · intro envE dp now signO key f up s hexp hnorm hval
    simp [handler000, hexp, afterExpiry000, parseBody, hnorm, hval]
  · intro envE dp now signO key f up hexp hnorm
    simp [handler000, hexp, afterExpiry000, parseBody, hnorm]

theorem claim_C3_witness :
    handlerFortune (some "key") "POST" "2026-01-01"
        (RawBody.object ⟨JsVal.str "", JsVal.undef⟩) upOk =
      ⟨invalidDobFortune, false, none⟩ ∧
    handler001 "POST" (some "key") none 0
        (RawBody.object ⟨JsVal.str "   ", JsVal.undef⟩) upOk =
      ⟨invalidDob001, false, none⟩ ∧
    handler000 "POST" none (fun _ => none) 0 none (some "key")
        (RawBody.object ⟨JsVal.str "08-Dec-1977", JsVal.undef⟩) upOk =
      ⟨invalidDob000, false, none⟩ ∧
    handler000 "POST" none (fun _ => none) 0 none (some "key")
        (RawBody.object ⟨JsVal.num 123, JsVal.undef⟩) upOk =
      ⟨serverError000, false, none⟩ :=
  ⟨claim_C3_amended.1 "key" "2026-01-01" _ _ rfl rfl,
    claim_C3_amended.2.1 "key" none 0 _ _ (by intro t ht; simp at ht) rfl,
    claim_C3_amended.2.2.1 none _ 0 none (some "key") _ _ "08-DEC-1977" rfl rfl rfl,
    claim_C3_amended.2.2.2 none _ 0 none (some "key") _ _ rfl rfl⟩

/-- Claim C4, counterexample: in the part_000 variant an upstream
non-success makes `callOpenAI` throw, and the catch-all maps it to the
generic 500 response — not the 502 the claim requires of every handler.
(The upstream raw error body still does not reach the response; see the
independence conjuncts of the amended theorem.) -/
theorem claim_C4_counterexample :
    (handler000 "POST" none (fun _ => none) 0 none (some "key")
        (RawBody.object ⟨JsVal.str "08DEC1977", JsVal.undef⟩) upFail).resp.statusCode = 500 ∧
    (handler000 "POST" none (fun _ => none) 0 none (some "key")
        (RawBody.object ⟨JsVal.str "08DEC1977", JsVal.undef⟩) upFail).resp.statusCode ≠ 502 :=
  ⟨rfl, by decide⟩

/-- Claim C4, amended: when the upstream call returns a non-success status,
fortune.js and part_001 return the 502 UpstreamError response while
part_000's thrown upstream error is caught and returned as its generic 500;
in every variant the response is independent of the upstream raw error
body (only the fixed message is returned; the raw body is only logged). -/
theorem claim_C4_amended :
    (∀ (k today : String) (f : Fields) (up : UpstreamResult),
      jsLtS EXPIRY_DATE_fortune today = false → dobRejectedFortune f.dob = false →
      up.ok = false →
      (handlerFortune (some k) "POST" today (RawBody.object f) up).resp =
          upstreamErrorFortune ∧
        (handlerFortune (some k) "POST" today (RawBody.object f) up).calledUpstream = true) ∧
    (∀ (k : String) (ep : Option Int) (now : Int) (f : Fields) (up : UpstreamResult),
      (∀ t, ep = some t → ¬ t < now) → dob001 f.dob ≠ "" → up.ok = false →
      (handler001 "POST" (some k) ep now (RawBody.object f) up).resp = upstreamError001 ∧
        (handler001 "POST" (some k) ep now (RawBody.object f) up).calledUpstream = true) ∧
    (∀ (envE : Option String) (dp : String → Option Int) (now : Int)
        (signO : Option String) (k : String) (f : Fields) (up : UpstreamResult) (s : String),
      expired000 envE dp now = false → dobNorm000 f.dob = some s → isValidDOB s = true →
      up.ok = false →
      (handler000 "POST" envE dp now signO (some k) (RawBody.object f) up).resp =
          serverError000 ∧
        (handler000 "POST" envE dp now signO (some k) (RawBody.object f) up).calledUpstream =
          true) ∧
    (∀ (ak : Option String) (m today : String) (body : RawBody) (ok : Bool) (st : Nat)
        (t₁ t₂ : String) (d : UpstreamData),
      handlerFortune ak m today body ⟨ok, st, t₁, d⟩ =
        handlerFortune ak m today body ⟨ok, st, t₂, d⟩) ∧
    (∀ (m : String) (envE : Option String) (dp : String → Option Int) (now : Int)
        (signO key : Option String) (body : RawBody) (ok : Bool) (st : Nat)
        (t₁ t₂ : String) (d : UpstreamData),
      handler000 m envE dp now signO key body ⟨ok, st, t₁, d⟩ =
        handler000 m envE dp now signO key body ⟨ok, st, t₂, d⟩) ∧
    (∀ (m : String) (ak : Option String) (ep : Option Int) (now : Int)
        (body : RawBody) (ok : Bool) (st : Nat) (t₁ t₂ : String) (d : UpstreamData),
      handler001 m ak ep now body ⟨ok, st, t₁, d⟩ =
        handler001 m ak ep now body ⟨ok, st, t₂, d⟩) := by
  refine ⟨?_, ?_, ?_, ?_, ?_, ?_⟩
  · intro k today f up hexp hrej hok
    constructor <;> simp [handlerFortune, hexp, parseBody, hrej, hok]
  · intro k ep now f up hexp hdob hok
    cases ep with
    | none => constructor <;> simp [handler001, afterExpiry001, parseBody, hdob, hok]
    | some t =>
        constructor <;>
          simp [handler001, hexp t rfl, afterExpiry001, parseBody, hdob, hok]
  · intro envE dp now signO k f up s hexp hnorm hval hok
    constructor <;> simp [handler000, hexp, afterExpiry000, parseBody, hnorm, hval, hok]
  · intro ak m today body ok st t₁ t₂ d
    rfl
  · intro m envE dp now signO key body ok st t₁ t₂ d
    rfl
  · intro m ak ep now body ok st t₁ t₂ d
    rfl

theorem claim_C4_witness :
    ((handlerFortune (some "key") "POST" "2026-01-01"
        (RawBody.object ⟨JsVal.str "X", JsVal.undef⟩) upFail).resp = upstreamErrorFortune ∧
      (handlerFortune (some "key") "POST" "2026-01-01"
        (RawBody.object ⟨JsVal.str "X", JsVal.undef⟩) upFail).calledUpstream = true) ∧
    ((handler001 "POST" (some "key") none 0
        (RawBody.object ⟨JsVal.str "X", JsVal.undef⟩) upFail).resp = upstreamError001 ∧
      (handler001 "POST" (some "key") none 0
        (RawBody.object ⟨JsVal.str "X", JsVal.undef⟩) upFail).calledUpstream = true) ∧
    ((handler000 "POST" none (fun _ => none) 0 none (some "key")
        (RawBody.object ⟨JsVal.str "08DEC1977", JsVal.undef⟩) upFail).resp = serverError000 ∧
      (handler000 "POST" none (fun _ => none) 0 none (some "key")
        (RawBody.object ⟨JsVal.str "08DEC1977", JsVal.undef⟩) upFail).calledUpstream = true) ∧
    handlerFortune (some "key") "POST" "2026-01-01" RawBody.absent
        ⟨false, 500, "raw error A", ⟨none, none⟩⟩ =
      handlerFortune (some "key") "POST" "2026-01-01" RawBody.absent
        ⟨false, 500, "raw error B", ⟨none, none⟩⟩ :=
  ⟨claim_C4_amended.1 "key" "2026-01-01" _ _ rfl rfl rfl,
    claim_C4_amended.2.1 "key" none 0 _ _ (by intro t ht; simp at ht) (by decide) rfl,
    claim_C4_amended.2.2.1 none _ 0 none "key" _ _ "08DEC1977" rfl rfl rfl rfl,
    claim_C4_amended.2.2.2.1 (some "key") "POST" "2026-01-01" RawBody.absent false 500
      "raw error A" "raw error B" ⟨none, none⟩⟩

/-! ### Helpers for the success-response round-trip claim -/

theorem extractFortune_ne_empty (d : UpstreamData) : extractFortune d ≠ "" := by
  obtain ⟨o, c⟩ := d
  unfold extractFortune
  cases c with
  | none => simp [truthyS]; decide
  | some s =>
    by_cases hs : s = ""
    · subst hs; simp [truthyS]; decide
    · simp [truthyS, bne_iff_ne, hs]

theorem extract001_ne_empty (d : UpstreamData) : extract001 d ≠ "" := by
  obtain ⟨o, c⟩ := d
  unfold extract001
  cases c with
  | none => exact (by decide : fallbackHtml001 ≠ "")
  | some s =>
    by_cases hs : jsTrim s = ""
    · simp [hs]
      exact (by decide : fallbackHtml001 ≠ "")
    · simp [bne_iff_ne, hs]

theorem append_sep_ne_empty (a b : String) : a ++ "\n" ++ b ≠ "" := by
  intro h
  have hlen := congrArg String.length h
  rw [String.length_append, String.length_append] at hlen
  have h1 : ("\n" : String).length = 1 := rfl
  have h0 : ("" : String).length = 0 := rfl
  rw [h1, h0] at hlen
  omega

theorem fortune_200_html (ak : Option String) (m today : String) (body : RawBody)
    (up : UpstreamResult) (h : (handlerFortune ak m today body up).resp.statusCode = 200) :
    ∃ s, (handlerFortune ak m today body up).resp.body = RespBody.html s ∧ s ≠ "" := by
  unfold handlerFortune at h ⊢
  split at h
  · simp_all [methodNotAllowedFortune]
  · split at h
    · simp_all [configErrorFortune]
    · split at h
      · exact ⟨fortuneExpiryHtml, by simp_all, by decide⟩
      · split at h
        · simp_all [unexpectedErrorFortune]
        · split at h
          · split at h
            · simp_all [invalidDobFortune]
            · split at h
              · simp_all [upstreamErrorFortune]
              · exact ⟨extractFortune up.data, by simp_all, extractFortune_ne_empty _⟩
          · split at h
            · simp_all [invalidDobFortune]
            · split at h
              · simp_all [upstreamErrorFortune]
              · exact ⟨extractFortune up.data, by simp_all, extractFortune_ne_empty _⟩




theorem h000_200_resultHtml (m : String) (envE : Option String) (dp : String → Option Int)
    (now : Int) (signO key : Option String) (body : RawBody) (up : UpstreamResult)
    (h : (handler000 m envE dp now signO key body up).resp.statusCode = 200) :
    ∃ s, (handler000 m envE dp now signO key body up).resp.body = RespBody.resultHtml s ∧
      s ≠ "" := by
  unfold handler000 at h ⊢
  split at h
  · simp_all [methodNotAllowed000]
  · split at h
    · exact ⟨"<p>" ++ EXPIRY_MESSAGE ++ "</p>", by simp_all, by decide⟩
    · unfold afterExpiry000 at h ⊢
      split at h
      · simp_all [serverError000]
      · split at h
        · simp_all [serverError000]
        · split at h
          · simp_all [invalidDob000]
          · split at h
            · simp_all [serverError000]
            · split at h
              · simp_all [serverError000]
              · exact ⟨extract000 up.data ++ "\n" ++ signOff000 signO, by simp_all,
                  append_sep_ne_empty _ _⟩

theorem after001_200 (body : RawBody) (up : UpstreamResult)
    (h : (afterExpiry001 body up).resp.statusCode = 200) :
    ∃ s, (afterExpiry001 body up).resp.body = RespBody.html s ∧ s ≠ "" := by
  unfold afterExpiry001 at h ⊢
  split at h
  · simp_all [invalidBody001]
  · dsimp only at h ⊢
    split at h
    all_goals try split at h
    all_goals try split at h
    all_goals first
      | (simp_all [invalidDob001, upstreamError001]; done)
      | exact extract001_ne_empty _
      | exact ⟨extract001 up.data, by simp_all, extract001_ne_empty _⟩

theorem h001_200_html (m : String) (ak : Option String) (ep : Option Int) (now : Int)
    (body : RawBody) (up : UpstreamResult)
    (h : (handler001 m ak ep now body up).resp.statusCode = 200) :
    ∃ s, (handler001 m ak ep now body up).resp.body = RespBody.html s ∧ s ≠ "" := by
  unfold handler001 at h ⊢
  split at h
  · simp_all [methodNotAllowed001]
  · rename_i hm
    split at h
    · simp_all [configError001]
    · rename_i hak
      rw [if_neg hm, if_neg hak]
      split at h
      · exact after001_200 _ _ h
      · rename_i t hep
        split at h
        · simp_all [expiredResp001]
        · rename_i hnow
          rw [if_neg hnow]
          exact after001_200 _ _ h

/-- Claim C9: every 200 response body is a JSON object with a non-empty
string under the variant's designated result field (`html` for fortune.js
and part_001, `resultHtml` for part_000), including when the upstream
success response carries an absent or empty extracted text (the fallback
paragraph, or the appended newline and sign-off, keeps the field
non-empty). -/
theorem claim_C9 :
    (∀ (ak : Option String) (m today : String) (body : RawBody) (up : UpstreamResult),
      (handlerFortune ak m today body up).resp.statusCode = 200 →
      ∃ s, (handlerFortune ak m today body up).resp.body = RespBody.html s ∧ s ≠ "") ∧
    (∀ (m : String) (envE : Option String) (dp : String → Option Int) (now : Int)
        (signO key : Option String) (body : RawBody) (up : UpstreamResult),
      (handler000 m envE dp now signO key body up).resp.statusCode = 200 →
      ∃ s, (handler000 m envE dp now signO key body up).resp.body = RespBody.resultHtml s ∧
        s ≠ "") ∧
    (∀ (m : String) (ak : Option String) (ep : Option Int) (now : Int) (body : RawBody)
        (up : UpstreamResult),
      (handler001 m ak ep now body up).resp.statusCode = 200 →
      ∃ s, (handler001 m ak ep now body up).resp.body = RespBody.html s ∧ s ≠ "") :=
  ⟨fortune_200_html, h000_200_resultHtml, h001_200_html⟩

theorem claim_C9_witness :
    (∃ s, (handlerFortune (some "key") "POST" "2026-01-01"
        (RawBody.object ⟨JsVal.str "08DEC1977", JsVal.undef⟩) upOk).resp.body =
          RespBody.html s ∧ s ≠ "") ∧
    (∃ s, (handler000 "POST" none (fun _ => none) 0 none (some "key")
        (RawBody.object ⟨JsVal.str "08DEC1977", JsVal.undef⟩)
        ⟨true, 200, "", ⟨some "", none⟩⟩).resp.body = RespBody.resultHtml s ∧ s ≠ "") ∧
    (∃ s, (handler001 "POST" (some "key") none 0
        (RawBody.object ⟨JsVal.str "08DEC1977", JsVal.undef⟩) upOk).resp.body =
          RespBody.html s ∧ s ≠ "") :=
  ⟨claim_C9.1 _ _ _ _ _ rfl, claim_C9.2.1 _ _ _ _ _ _ _ _ rfl,
    claim_C9.2.2 _ _ _ _ _ _ rfl⟩

/-- Claim C10, counterexample: a POST request with an absent body but no
configured API key returns the 500 ConfigError (the key gate precedes body
handling in fortune.js and part_001), not the 400 InvalidInput outcome the
claim requires of every POST request whose body is absent or empty. -/
theorem claim_C10_counterexample :
    handlerFortune none "POST" "2026-01-01" RawBody.absent upOk =
      ⟨configErrorFortune, false, none⟩ ∧
    configErrorFortune.statusCode = 500 ∧ configErrorFortune.statusCode ≠ 400 :=
  ⟨rfl, rfl, by decide⟩

/-- Claim C10, amended: body parsing substitutes the empty object for an
absent or empty body (parsing succeeds, both fields undefined), and every
POST request with an absent or empty body that passes the gates preceding
body handling (the API-key gate where it comes first, and the expiry gate)
receives the variant's 400 InvalidInput response for the missing dob —
never an InvalidBody parse failure — with no upstream call. -/
theorem claim_C10_amended :
    parseBody RawBody.absent = Except.ok ⟨JsVal.undef, JsVal.undef⟩ ∧
    parseBody RawBody.empty = Except.ok ⟨JsVal.undef, JsVal.undef⟩ ∧
    (∀ (k today : String) (up : UpstreamResult) (b : RawBody),
      jsLtS EXPIRY_DATE_fortune today = false →
      b = RawBody.absent ∨ b = RawBody.empty →
      handlerFortune (some k) "POST" today b up = ⟨invalidDobFortune, false, none⟩) ∧
    (∀ (envE : Option String) (dp : String → Option Int) (now : Int)
        (signO key : Option String) (up : UpstreamResult) (b : RawBody),
      expired000 envE dp now = false → b = RawBody.absent ∨ b = RawBody.empty →
      handler000 "POST" envE dp now signO key b up = ⟨invalidDob000, false, none⟩) ∧
    (∀ (k : String) (ep : Option Int) (now : Int) (up : UpstreamResult) (b : RawBody),
      (∀ t, ep = some t → ¬ t < now) → b = RawBody.absent ∨ b = RawBody.empty →
      handler001 "POST" (some k) ep now b up = ⟨invalidDob001, false, none⟩) := by
  refine ⟨rfl, rfl, ?_, ?_, ?_⟩
  · intro k today up b hexp hb
    have h : handlerFortune (some k) "POST" today b up =
        (match parseBody b with
          | .error _ => ⟨unexpectedErrorFortune, false, none⟩
          | .ok fields =>
              let lang := if fields.language = JsVal.str "zh" then "zh" else "en"
              if dobRejectedFortune fields.dob then ⟨invalidDobFortune, false, none⟩
              else
                let dob := strOf fields.dob
                if !up.ok then ⟨upstreamErrorFortune, true, some (promptFortune dob lang)⟩
                else ⟨⟨200, .html (extractFortune up.data)⟩, true,
                  some (promptFortune dob lang)⟩) := by
      simp [handlerFortune, hexp]
    rcases hb with rfl | rfl <;> rw [h] <;> rfl
  · intro envE dp now signO key up b hexp hb
    have h : handler000 "POST" envE dp now signO key b up =
        afterExpiry000 key signO b up := by
      simp [handler000, hexp]
    rcases hb with rfl | rfl <;> rw [h] <;> rfl
  · intro k ep now up b hexp hb
    rcases hb with rfl | rfl <;>
      (cases ep with
        | none => simp [handler001, afterExpiry001, parseBody, dob001]
        | some t => simp [handler001, hexp t rfl, afterExpiry001, parseBody, dob001])

theorem claim_C10_witness :
    handlerFortune (some "key") "POST" "2026-01-01" RawBody.absent upOk =
      ⟨invalidDobFortune, false, none⟩ ∧
    handler000 "POST" none (fun _ => none) 0 none (some "key") RawBody.empty upOk =
      ⟨invalidDob000, false, none⟩ ∧
    handler001 "POST" (some "key") none 0 RawBody.empty upOk =
      ⟨invalidDob001, false, none⟩ :=
  ⟨claim_C10_amended.2.2.1 "key" "2026-01-01" upOk RawBody.absent rfl (Or.inl rfl),
    claim_C10_amended.2.2.2.1 none _ 0 none (some "key") upOk RawBody.empty rfl (Or.inr rfl),
    claim_C10_amended.2.2.2.2 "key" none 0 upOk RawBody.empty
      (by intro t ht; simp at ht) (Or.inr rfl)⟩

end CNY

